import Mathlib

/-
Verification of the raster algebra and resampling core
(geoscript/layer/raster.py) against its design specification.

The Python class `Raster` is embedded shallowly:
  * model-space coordinates are rationals (ℚ), pixel coordinates are ℤ;
  * the opaque GeoTools `GridCoverage2D` values are modelled by the
    inductive `Coverage`: either a concrete base grid (extent, pixel
    size, band count) or the symbolic result of an engine operation,
    recording the operation name and the named parameters exactly as
    the Python code passes them to `Raster._op` / the process classes;
  * Python exceptions are modelled by `Except Err`;
  * Python `int(...)` truncation toward zero on a float is `pyInt`.
-/

namespace Geoscript

/-- Error kinds of the design (spec section 7), plus the Python-level
`AttributeError` that `self.proj._crs` raises when a raster has no CRS. -/
inductive Err where
  | divideByZero
  | bandCountMismatch
  | invalidGeometry
  | unsupportedInterpolation
  | attributeError
  deriving DecidableEq, Repr

/-- Modelled from the spec: `geoscript.geom.Bounds` (not under src/) — an
axis-aligned model-space rectangle with an optional CRS, as in spec
section 3: `{minX, minY, maxX, maxY, crs}`. The CRS handle is opaque
(a name). Constructor argument order follows the Python call
`Bounds(west, south, east, north, proj)`. -/
structure Bounds where
  west : ℚ
  south : ℚ
  east : ℚ
  north : ℚ
  proj : Option String := none
  deriving DecidableEq, Repr

/-- Modelled from the spec: `width = maxX - minX`. -/
def Bounds.width (b : Bounds) : ℚ := b.east - b.west

/-- Modelled from the spec: `height = maxY - minY`. -/
def Bounds.height (b : Bounds) : ℚ := b.north - b.south

/-- Modelled from the spec: `aspect = height / width`. -/
def Bounds.aspect (b : Bounds) : ℚ := b.height / b.width

/-- `GridEnvelope2D(x, y, width, height)`: the pixel-space rectangle of a
grid geometry. -/
structure GridEnvelope2D where
  x : ℤ
  y : ℤ
  width : ℤ
  height : ℤ
  deriving DecidableEq, Repr

/-- `GridGeometry2D(gridRange, envelope)`: pairs a pixel-space rectangle
with model-space bounds (spec section 3, GridGeometry). -/
structure GridGeometry2D where
  range : GridEnvelope2D
  env : Bounds
  deriving DecidableEq, Repr

/-- A coverage value: either a concrete base grid (its model-space extent,
pixel size and band count), or the symbolic result returned by the
external engine for a named operation.  Every operation the Python code
dispatches has one or two coverage sources; an operation result records
the operation name, the keyword name and value of each coverage source,
and the `constants`, `CoordinateReferenceSystem` and `GridGeometry`
parameters when the call site passes them — exactly the keyword
arguments of `Raster._op` and of the process classes (`ScaleCoverage`,
`CropCoverage`). -/
inductive Coverage where
  | grid (extent : Bounds) (size : ℤ × ℤ) (nbands : Nat) : Coverage
  | opResult1 (name : String) (srcName : String) (src : Coverage)
      (constants : Option (List ℚ)) (crs : Option String)
      (gg : Option GridGeometry2D) : Coverage
  | opResult2 (name : String) (src0Name : String) (src0 : Coverage)
      (src1Name : String) (src1 : Coverage) : Coverage
  deriving DecidableEq, Repr

/-- Band count of a coverage.  For a base grid it is stored; for an
operation result it is, per the engine contract of spec section 4.4
(elementwise, per-band operations), the band count of the first source
coverage. -/
def covBands : Coverage → Nat
  | .grid _ _ n => n
  | .opResult1 _ _ c _ _ _ => covBands c
  | .opResult2 _ _ c _ _ => covBands c

/-- Model-space envelope of a coverage (`coverage.getEnvelope()`).  For an
operation result carrying a `GridGeometry` parameter the engine returns
a coverage on that geometry's envelope (spec section 4.2 step 3);
otherwise the envelope of the first source is preserved (elementwise
operations, spec section 4.4). -/
def covExtent : Coverage → Bounds
  | .grid e _ _ => e
  | .opResult1 _ _ c _ _ gg =>
    match gg with
    | some g => g.env
    | none => covExtent c
  | .opResult2 _ _ c _ _ => covExtent c

/-- Pixel size of a coverage (`coverage.getGridGeometry().getGridRange2D()`).
For an operation result carrying a `GridGeometry` parameter the engine
returns a coverage on that geometry's grid range; otherwise the grid of
the first source is preserved. -/
def covSize : Coverage → ℤ × ℤ
  | .grid _ s _ => s
  | .opResult1 _ _ c _ _ gg =>
    match gg with
    | some g => (g.range.width, g.range.height)
    | none => covSize c
  | .opResult2 _ _ c _ _ => covSize c

/-- The Python `Raster` object: `self._format`, `self._reader` (opaque
handles, possibly `None`) and `self._coverage`. -/
structure Raster where
  format : Option String
  reader : Option String
  coverage : Coverage
  deriving DecidableEq, Repr

/-- `Raster.getextent`: the coverage envelope (with its CRS). -/
def Raster.extent (r : Raster) : Bounds := covExtent r.coverage

/-- `Raster.getsize`: `(grid.width, grid.height)` of the coverage's grid
range. -/
def Raster.size (r : Raster) : ℤ × ℤ := covSize r.coverage

/-- `Raster.getproj`: the coverage's CRS (the extent's CRS in this model);
`None` when the coverage has none. -/
def Raster.projOf (r : Raster) : Option String := (covExtent r.coverage).proj

/-- `Raster.getpixelsize`:
`return (b.width/s[0], b.height/s[1])` — Python raises
`ZeroDivisionError` at the first division by a zero size component. -/
def Raster.pixelsize (r : Raster) : Except Err (ℚ × ℚ) :=
  let b := r.extent
  let s := r.size
  if s.1 = 0 then .error .divideByZero
  else if s.2 = 0 then .error .divideByZero
  else .ok (b.width / (s.1 : ℚ), b.height / (s.2 : ℚ))

/-- Modelled from the spec: the engine-side validation of a constants
vector against a source coverage when `Raster._op` executes a
single-source operation (spec section 4.4 and 7: a vector of constants
must have length 1 — a scalar broadcast to every band — or length equal
to the band count; mismatches fail with `BandCountMismatch`).  The
Python code dispatches without its own check; the failure is the
engine's. -/
def opValidate1 (src : Coverage) (consts : Option (List ℚ)) :
    Except Err Unit :=
  match consts with
  | none => .ok ()
  | some cs =>
    if cs.length == 1 || cs.length == covBands src then .ok ()
    else .error .bandCountMismatch

/-- `Raster._op(name, **params)` for an operation with one coverage
source: look the operation up in the engine's processor, set the named
parameters, and run it.  The engine validates the constants vector
(`opValidate1`, modelled from the spec) and returns the operation
result. -/
def Raster.op1 (name srcName : String) (src : Coverage)
    (consts : Option (List ℚ)) (crs : Option String)
    (gg : Option GridGeometry2D) : Except Err Coverage := do
  opValidate1 src consts
  pure (.opResult1 name srcName src consts crs gg)

/-- `Raster._op(name, **params)` for an operation with two coverage
sources: per the engine contract of spec sections 4.4 and 7, the two
sources' band counts must agree or the operation fails with
`BandCountMismatch` (modelled from the spec; the Python code dispatches
without its own check). -/
def Raster.op2 (name src0Name : String) (src0 : Coverage)
    (src1Name : String) (src1 : Coverage) : Except Err Coverage :=
  if covBands src0 == covBands src1 then
    .ok (.opResult2 name src0Name src0 src1Name src1)
  else .error .bandCountMismatch

/-- Python `int(...)` applied to a rational: truncation toward zero. -/
def pyInt (q : ℚ) : ℤ := if 0 ≤ q then ⌊q⌋ else ⌈q⌉

/-- `Raster.resample(bbox=None, rect=None, size=None)`, following the
source line by line:

* if `bbox` is not given and `rect` is, the bounds are computed from the
  pixel rectangle via `self.pixelsize` and the extent origin;
* if neither is given, the full current extent is used;
* if `size` is not given and `rect` is not given, the size is
  auto-computed: `w = int(self.size[0] * bbox.width / e.width)`,
  `size = (w, int(w * e.aspect))` (Python raises `ZeroDivisionError`
  when `e.width` is zero);
* if `size` is not given and `rect` is, `size = rect[2], rect[3]`;
* a `GridGeometry2D(GridEnvelope2D(0, 0, *size), bbox)` is built and a
  `Resample` operation dispatched with `self.proj._crs` (Python raises
  `AttributeError` when `self.proj` is `None`) — the result shares
  `self._format` and `self._reader`. -/
def Raster.resample (r : Raster) (bbox : Option Bounds)
    (rect : Option (ℤ × ℤ × ℤ × ℤ)) (size : Option (ℤ × ℤ)) :
    Except Err Raster := do
  let bbox ← match bbox with
    | some b => pure b
    | none =>
      match rect with
      | some rc => do
        let pxy ← r.pixelsize
        let dx := pxy.1
        let dy := pxy.2
        let e := r.extent
        pure (Bounds.mk (e.west + (rc.1 : ℚ) * dx) (e.south + (rc.2.1 : ℚ) * dy)
          (e.west + ((rc.1 + rc.2.2.1 : ℤ) : ℚ) * dx)
          (e.south + ((rc.2.1 + rc.2.2.2 : ℤ) : ℚ) * dy) e.proj)
      | none => pure r.extent
  let size ← match size with
    | some sz => pure sz
    | none =>
      match rect with
      | none => do
        let e := r.extent
        if e.width = 0 then throw .divideByZero
        else
          let w := pyInt (((covSize r.coverage).1 : ℚ) * bbox.width / e.width)
          pure (w, pyInt ((w : ℚ) * e.aspect))
      | some rc => pure (rc.2.2.1, rc.2.2.2)
  let gg := GridGeometry2D.mk (GridEnvelope2D.mk 0 0 size.1 size.2) bbox
  let crs ← match r.projOf with
    | some c => pure c
    | none => throw .attributeError
  let result ← Raster.op1 "Resample" "Source" r.coverage none (some crs)
    (some gg)
  pure (Raster.mk r.format r.reader result)

/-- Modelled from the spec: `util.jai.interpolation` (not under src/) —
resolves a named interpolation mode; recognized options are nearest,
bilinear, bicubic, anything else fails with `UnsupportedInterpolation`
(spec section 4.3). -/
def jaiInterpolation (interp : String) : Except Err Unit :=
  if interp == "nearest" || interp == "bilinear" || interp == "bicubic" then
    .ok ()
  else .error .unsupportedInterpolation

/-- `Raster.scale(x, y, interp)`: resolve the interpolation mode, run the
`ScaleCoverage` process on the coverage, and wrap the result with
`self._format` and `self._reader`.  The numeric scale factors are
engine-side arguments and do not affect the provenance or band
structure modelled here. -/
def Raster.scale (r : Raster) (_x _y : ℚ) (interp : String) :
    Except Err Raster := do
  jaiInterpolation interp
  pure (Raster.mk r.format r.reader
    (.opResult1 "Scale" "Source" r.coverage none none none))

/-- `Raster.crop(geom)`: run the `CropCoverage` process on the coverage and
wrap the result with `self._format` and `self._reader`.  The clip
geometry is an engine-side argument and does not affect the provenance
modelled here. -/
def Raster.crop (r : Raster) : Raster :=
  Raster.mk r.format r.reader
    (.opResult1 "Crop" "Source" r.coverage none none none)

/-- A Python operand of the binary operators: `isinstance(other, Raster)`,
a `list`/`tuple` of numbers, or a single number. -/
inductive Operand where
  | raster (o : Raster)
  | scalar (c : ℚ)
  | vec (cs : List ℚ)

/-- The `constants` array a non-raster operand is packed into:
`array(other if isinstance(other, (list, tuple)) else [other], 'd')`. -/
def Operand.constants : Operand → List ℚ
  | .raster _ => []
  | .scalar c => [c]
  | .vec cs => cs

/-- `Raster.__add__`: `Add` on two coverages, else `AddConst` with the
packed constants; the result is `Raster(self._format, coverage=result)`
— no `reader` argument, so the derived raster's reader is `None`. -/
def Raster.add (r : Raster) (other : Operand) : Except Err Raster := do
  match other with
  | .raster o => do
    let result ← Raster.op2 "Add" "Source0" r.coverage "Source1" o.coverage
    pure (Raster.mk r.format none result)
  | _ => do
    let result ← Raster.op1 "AddConst" "Source" r.coverage
      (some other.constants) none none
    pure (Raster.mk r.format none result)

/-- `Raster.__neg__`: dispatch `Invert` (output = −input); the result keeps
`self._format` and `self._reader`. -/
def Raster.neg (r : Raster) : Except Err Raster := do
  let result ← Raster.op1 "Invert" "Source" r.coverage none none none
  pure (Raster.mk r.format r.reader result)

/-- `Raster.__sub__`: for a raster operand, `self.__add__(-other)`
(negate-then-add); otherwise `SubtractConst` with the packed constants
and no `reader` argument. -/
def Raster.sub (r : Raster) (other : Operand) : Except Err Raster := do
  match other with
  | .raster o => do
    let no ← o.neg
    r.add (.raster no)
  | _ => do
    let result ← Raster.op1 "SubtractConst" "Source" r.coverage
      (some other.constants) none none
    pure (Raster.mk r.format none result)

/-- `Raster.__mul__`: `Multiply` on two coverages, else `MultiplyConst`
with the packed constants; no `reader` argument in either branch. -/
def Raster.mul (r : Raster) (other : Operand) : Except Err Raster := do
  match other with
  | .raster o => do
    let result ← Raster.op2 "Multiply" "Source0" r.coverage
      "Source1" o.coverage
    pure (Raster.mk r.format none result)
  | _ => do
    let result ← Raster.op1 "MultiplyConst" "Source" r.coverage
      (some other.constants) none none
    pure (Raster.mk r.format none result)

/-- `Raster.__div__`: for a raster operand, dispatch `DivideIntoConst`
with constant array `[1]` on the *other* coverage (computing `1/b`
elementwise), wrap it as `Raster(other._format, coverage=result)` and
multiply `self` by it; otherwise `DivideByConst` with the packed
constants. -/
def Raster.div (r : Raster) (other : Operand) : Except Err Raster := do
  match other with
  | .raster o => do
    let result ← Raster.op1 "DivideIntoConst" "Source" o.coverage
      (some [1]) none none
    r.mul (.raster (Raster.mk o.format none result))
  | _ => do
    let result ← Raster.op1 "DivideByConst" "Source" r.coverage
      (some other.constants) none none
    pure (Raster.mk r.format none result)

/-- `Raster.__invert__`: the body is `pass`, so Python returns `None` for
`~raster`. -/
def Raster.invert (_ : Raster) : Option Raster := none

/-- Events on the engine-side feature cursor acquired by
`Raster.features` (`it = result.features()`): `it.next()` and
`it.close()`. -/
inductive CursorEvent where
  | next
  | close
  deriving DecidableEq, Repr

/-- The cursor events executed by the generator body of `Raster.features`
when the consumer makes `m` `next`-requests on a generator over `n`
available features.  Following the source: the `while it.hasNext()`
loop calls `it.next()` once before each `yield`, and `it.close()`
stands after the loop with no `try`/`finally`; so each of the first `n`
requests executes one `it.next()`, and only a further request (normal
exhaustion: `hasNext` returns false, the loop exits) reaches
`it.close()`.  A consumer that abandons the generator after `m ≤ n`
requests leaves it suspended at the `yield`, and the `it.close()` line
is never executed. -/
def cursorTrace (n m : Nat) : List CursorEvent :=
  if n < m then List.replicate n .next ++ [.close]
  else List.replicate m .next

/-- `Raster.features()`: the engine's `RasterAsPointCollectionProcess`
produces one feature per pixel (spec section 4.5: one point sample per
pixel — modelled from the spec, the process class is not under src/),
and the generator walks the feature cursor as in `cursorTrace`. -/
def Raster.featuresTrace (r : Raster) (m : Nat) : List CursorEvent :=
  cursorTrace ((covSize r.coverage).1 * (covSize r.coverage).2).toNat m

/-- The auto-computed output size exactly as the specification words it
(spec section 4.2 step 2): `outWidth = round(currentSize.x * bbox.width
/ currentExtent.width)` and `outHeight = round(outWidth *
currentExtent.aspect)`.  Stated for comparison with the size the source
actually computes (which uses Python `int`, i.e. truncation). -/
def autoSizeSpec (curSize : ℤ × ℤ) (curExtent bbox : Bounds) : ℤ × ℤ :=
  let w := round ((curSize.1 : ℚ) * bbox.width / curExtent.width)
  (w, round ((w : ℚ) * curExtent.aspect))

/-- The specification's `invert(b)` (spec section 4.4): compute `1/b`
elementwise by dispatching a divide-into-constant-1 operation on `b`'s
coverage. -/
def Raster.invertCoverage (b : Raster) : Except Err Raster := do
  let c ← Raster.op1 "DivideIntoConst" "Source" b.coverage (some [1]) none none
  pure (Raster.mk b.format none c)

/-- The specification's divide formulation (spec section 4.4):
`a / b == a * invert(b)` — invert `b` and then form the raster-raster
product. -/
def Raster.divSpec (a b : Raster) : Except Err Raster := do
  let ib ← b.invertCoverage
  a.mul (.raster ib)

deriving instance DecidableEq for Except

/-! Reduction lemmas for the `Except` monad, used to unfold the
sequential (do-notation) embeddings in the proofs below. -/

@[simp] theorem exceptBind_ok {ε α β : Type} (a : α) (f : α → Except ε β) :
    (Except.ok a : Except ε α) >>= f = f a := rfl

@[simp] theorem exceptBind_error {ε α β : Type} (e : ε)
    (f : α → Except ε β) :
    (Except.error e : Except ε α) >>= f = Except.error e := rfl

@[simp] theorem exceptPure_eq_ok {ε α : Type} (a : α) :
    (pure a : Except ε α) = Except.ok a := rfl

@[simp] theorem exceptThrow_eq_error {ε α : Type} (e : ε) :
    (throw e : Except ε α) = Except.error e := rfl

/-- Mapping over a successful `Except` value. -/
theorem exceptMap_ok' {ε α β : Type} (f : α → β) (a : α) :
    f <$> (Except.ok a : Except ε α) = Except.ok (f a) := rfl

/-- C10: for every raster `r`, the bitwise-inversion operator `~r`
(`__invert__`) returns `None` rather than a `Raster` — the method body is
an empty stub — while unary negation `-r` (`__neg__`) dispatches the
engine's `Invert` operation on `r`'s coverage and returns a new `Raster`
carrying `r`'s format and reader. -/
theorem c10_invert_returns_none_neg_dispatches (r : Raster) :
    r.invert = none
    ∧ r.neg = .ok (Raster.mk r.format r.reader
        (.opResult1 "Invert" "Source" r.coverage none none none)) :=
  ⟨rfl, rfl⟩

/-- C3: raster-by-raster division `a / b` is computed as `a * invert(b)`
— the spec's two-step formulation `divSpec` — where `invert(b)` dispatches
a `DivideIntoConst` operation with constant array `[1]` on `b`'s coverage,
and the product is the raster-raster `Multiply`; the resulting coverage
term is a `Multiply` node over a `DivideIntoConst` node, not a direct
elementwise divide operation. -/
theorem c3_div_is_multiply_by_inverted (a b : Raster) :
    a.div (.raster b) = Raster.divSpec a b
    ∧ (covBands a.coverage = covBands b.coverage →
        a.div (.raster b) = .ok (Raster.mk a.format none
          (.opResult2 "Multiply" "Source0" a.coverage "Source1"
            (.opResult1 "DivideIntoConst" "Source" b.coverage
              (some [1]) none none)))) := by
  constructor
  · simp [Raster.div, Raster.divSpec, Raster.invertCoverage, Raster.mul,
      Raster.op1, Raster.op2, opValidate1]
  · intro h
    simp [Raster.div, Raster.mul, Raster.op1, Raster.op2, opValidate1,
      covBands, h]

/-- C3 witness: two concrete 2-band rasters; division produces exactly the
`Multiply`-of-`DivideIntoConst` term. -/
theorem c3_div_is_multiply_by_inverted_witness :
    (Raster.mk (some "GeoTIFF") (some "readerA")
        (.grid ⟨0, 0, 10, 10, some "epsg:4326"⟩ (10, 10) 2)).div
        (.raster (Raster.mk (some "GeoTIFF") (some "readerB")
          (.grid ⟨0, 0, 10, 10, some "epsg:4326"⟩ (10, 10) 2)))
      = Raster.divSpec
        (Raster.mk (some "GeoTIFF") (some "readerA")
          (.grid ⟨0, 0, 10, 10, some "epsg:4326"⟩ (10, 10) 2))
        (Raster.mk (some "GeoTIFF") (some "readerB")
          (.grid ⟨0, 0, 10, 10, some "epsg:4326"⟩ (10, 10) 2))
    ∧ covBands (Coverage.grid ⟨0, 0, 10, 10, some "epsg:4326"⟩ (10, 10) 2)
        = covBands (Coverage.grid ⟨0, 0, 10, 10, some "epsg:4326"⟩ (10, 10) 2)
    ∧ (Raster.mk (some "GeoTIFF") (some "readerA")
        (.grid ⟨0, 0, 10, 10, some "epsg:4326"⟩ (10, 10) 2)).div
        (.raster (Raster.mk (some "GeoTIFF") (some "readerB")
          (.grid ⟨0, 0, 10, 10, some "epsg:4326"⟩ (10, 10) 2)))
      = .ok (Raster.mk (some "GeoTIFF") none
          (.opResult2 "Multiply" "Source0"
            (.grid ⟨0, 0, 10, 10, some "epsg:4326"⟩ (10, 10) 2) "Source1"
            (.opResult1 "DivideIntoConst" "Source"
              (.grid ⟨0, 0, 10, 10, some "epsg:4326"⟩ (10, 10) 2)
              (some [1]) none none))) := by
  refine ⟨(c3_div_is_multiply_by_inverted _ _).1, rfl,
    (c3_div_is_multiply_by_inverted _ _).2 rfl⟩

/-- C4: when the two raster operands of a binary algebra operation have
different band counts, or a vector-of-scalars operand's length is neither
1 nor the raster's band count, the operation fails with
`BandCountMismatch` (engine-side check, modelled from the spec).  The
operand rasters are values of the pure model, so the failing operation
leaves them unchanged by construction. -/
theorem c4_band_count_mismatch_rejected :
    (∀ a b : Raster, covBands a.coverage ≠ covBands b.coverage →
      a.add (.raster b) = .error .bandCountMismatch
      ∧ a.sub (.raster b) = .error .bandCountMismatch
      ∧ a.mul (.raster b) = .error .bandCountMismatch
      ∧ a.div (.raster b) = .error .bandCountMismatch)
    ∧ (∀ (a : Raster) (cs : List ℚ), cs.length ≠ 1 →
        cs.length ≠ covBands a.coverage →
      a.add (.vec cs) = .error .bandCountMismatch
      ∧ a.sub (.vec cs) = .error .bandCountMismatch
      ∧ a.mul (.vec cs) = .error .bandCountMismatch
      ∧ a.div (.vec cs) = .error .bandCountMismatch) := by
  constructor
  · intro a b h
    refine ⟨?_, ?_, ?_, ?_⟩ <;>
      simp [Raster.add, Raster.sub, Raster.mul, Raster.div, Raster.neg,
        Raster.op1, Raster.op2, opValidate1, covBands, h]
  · intro a cs h1 h2
    refine ⟨?_, ?_, ?_, ?_⟩ <;>
      simp [Raster.add, Raster.sub, Raster.mul, Raster.div,
        Operand.constants, Raster.op1, opValidate1, h1, h2]

/-- C4 witness: the spec's scenario — a 3-band raster added to a 4-band
raster fails with `BandCountMismatch` (and so do the other operators),
and a length-2 constants vector against a 3-band raster fails too. -/
theorem c4_band_count_mismatch_rejected_witness :
    covBands (Coverage.grid ⟨0, 0, 10, 10, some "epsg:4326"⟩ (10, 10) 3)
      ≠ covBands (Coverage.grid ⟨0, 0, 10, 10, some "epsg:4326"⟩ (10, 10) 4)
    ∧ (Raster.mk (some "GeoTIFF") (some "readerA")
        (.grid ⟨0, 0, 10, 10, some "epsg:4326"⟩ (10, 10) 3)).add
        (.raster (Raster.mk (some "GeoTIFF") (some "readerB")
          (.grid ⟨0, 0, 10, 10, some "epsg:4326"⟩ (10, 10) 4)))
      = .error .bandCountMismatch
    ∧ ([4, 5] : List ℚ).length ≠ 1
    ∧ ([4, 5] : List ℚ).length
        ≠ covBands (Coverage.grid ⟨0, 0, 10, 10, some "epsg:4326"⟩ (10, 10) 3)
    ∧ (Raster.mk (some "GeoTIFF") (some "readerA")
        (.grid ⟨0, 0, 10, 10, some "epsg:4326"⟩ (10, 10) 3)).add
        (.vec [4, 5])
      = .error .bandCountMismatch := by
  refine ⟨by decide, ?_, by decide, by decide, ?_⟩
  · exact (c4_band_count_mismatch_rejected.1 _ _ (by decide)).1
  · exact (c4_band_count_mismatch_rejected.2 _ [4, 5]
      (by decide) (by decide)).1

/-- C7: the feature generator closes the engine-side cursor only on
normal exhaustion.  For a 2×2 raster (4 features): a consumer driving the
generator to exhaustion (5 requests) executes 4 `next` events and then
`close`; a consumer that abandons the sequence after a single feature
executes exactly one `next` event and no `close` — the `it.close()` line
after the loop is never reached, contradicting the claimed guaranteed
release on every path. -/
theorem c7_cursor_close_only_on_exhaustion :
    (Raster.mk (some "GeoTIFF") (some "reader0")
        (.grid ⟨0, 0, 2, 2, some "epsg:4326"⟩ (2, 2) 1)).featuresTrace 5
      = [.next, .next, .next, .next, .close]
    ∧ (Raster.mk (some "GeoTIFF") (some "reader0")
        (.grid ⟨0, 0, 2, 2, some "epsg:4326"⟩ (2, 2) 1)).featuresTrace 1
      = [.next] := ⟨rfl, rfl⟩

/-- C8: for a raster with nonzero pixel counts, `pixelsize` returns
`(extent.width/size.width, extent.height/size.height)`; when either size
component is zero, it fails with `DivideByZero` (Python
`ZeroDivisionError`). -/
theorem c8_pixelsize_spec (fmt rdr : Option String) (e : Bounds)
    (s : ℤ × ℤ) (n : Nat) :
    (s.1 ≠ 0 → s.2 ≠ 0 →
      (Raster.mk fmt rdr (.grid e s n)).pixelsize
        = .ok (e.width / (s.1 : ℚ), e.height / (s.2 : ℚ)))
    ∧ (s.1 = 0 ∨ s.2 = 0 →
      (Raster.mk fmt rdr (.grid e s n)).pixelsize
        = .error .divideByZero) := by
  constructor
  · intro h1 h2
    simp [Raster.pixelsize, Raster.extent, Raster.size, covExtent,
      covSize, h1, h2]
  · rintro (h | h) <;>
      simp [Raster.pixelsize, Raster.extent, Raster.size, covExtent,
        covSize, h]

/-- C8 witness: a raster with extent `(0,0,100,50)` and size `(10,5)` has
pixel size `(10,10)`; a degenerate raster with zero width fails with
`DivideByZero`. -/
theorem c8_pixelsize_spec_witness :
    ((10 : ℤ) ≠ 0) ∧ ((5 : ℤ) ≠ 0)
    ∧ (Raster.mk (some "GeoTIFF") (some "reader0")
        (.grid ⟨0, 0, 100, 50, some "epsg:4326"⟩ (10, 5) 1)).pixelsize
      = .ok (10, 10)
    ∧ (Raster.mk (some "GeoTIFF") (some "reader0")
        (.grid ⟨0, 0, 100, 50, some "epsg:4326"⟩ (0, 5) 1)).pixelsize
      = .error .divideByZero := by
  refine ⟨by decide, by decide, ?_, ?_⟩
  · have h := (c8_pixelsize_spec (some "GeoTIFF") (some "reader0")
      ⟨0, 0, 100, 50, some "epsg:4326"⟩ (10, 5) 1).1 (by decide) (by decide)
    norm_num [Bounds.width, Bounds.height] at h
    exact h
  · exact (c8_pixelsize_spec (some "GeoTIFF") (some "reader0")
      ⟨0, 0, 100, 50, some "epsg:4326"⟩ (0, 5) 1).2 (Or.inl rfl)

/-- C9: when both `bbox` and `rect` are supplied and `size` is not,
`resample` does not reject them as conflicting: the target bounds are the
supplied `bbox` alone (the rect-to-model-space conversion is skipped —
the grid geometry's envelope is `bbox` itself, untouched by `rect`),
while the output size is `(rect.width, rect.height)`. -/
theorem c9_bbox_wins_rect_supplies_size (fmt rdr : Option String)
    (cov : Coverage) (bb : Bounds) (rc : ℤ × ℤ × ℤ × ℤ) (p : String)
    (hpr : (covExtent cov).proj = some p) :
    (Raster.mk fmt rdr cov).resample (some bb) (some rc) none
      = .ok (Raster.mk fmt rdr (.opResult1 "Resample" "Source" cov
          none (some p) (some ⟨⟨0, 0, rc.2.2.1, rc.2.2.2⟩, bb⟩))) := by
  simp [Raster.resample, Raster.projOf, Raster.op1, opValidate1, hpr]

/-- C9 witness: with `bbox = (5,5,25,15)` and `rect = (3,4,7,8)` the
output envelope is the bbox itself and the output size is `(7,8)`. -/
theorem c9_bbox_wins_rect_supplies_size_witness :
    (covExtent (Coverage.grid ⟨0, 0, 100, 50, some "epsg:4326"⟩
        (100, 50) 1)).proj = some "epsg:4326"
    ∧ (Raster.mk (some "GeoTIFF") (some "reader0")
        (.grid ⟨0, 0, 100, 50, some "epsg:4326"⟩ (100, 50) 1)).resample
        (some ⟨5, 5, 25, 15, none⟩) (some (3, 4, 7, 8)) none
      = .ok (Raster.mk (some "GeoTIFF") (some "reader0")
          (.opResult1 "Resample" "Source"
            (.grid ⟨0, 0, 100, 50, some "epsg:4326"⟩ (100, 50) 1)
            none (some "epsg:4326")
            (some ⟨⟨0, 0, 7, 8⟩, ⟨5, 5, 25, 15, none⟩⟩))) :=
  ⟨rfl, c9_bbox_wins_rect_supplies_size (some "GeoTIFF") (some "reader0")
    (.grid ⟨0, 0, 100, 50, some "epsg:4326"⟩ (100, 50) 1)
    ⟨5, 5, 25, 15, none⟩ (3, 4, 7, 8) "epsg:4326" rfl⟩

/-- C1 counterexample: the claim's `round` formula does not match the
code.  For a raster with extent `(0,0,10,10)`, size `(10,10)` and a bbox
of width `1.9`, the code's `int(...)` truncation yields output size
`(1,1)` while the claimed `round(...)` formula yields `(2,2)`. -/
theorem c1_round_formula_counterexample :
    ((Raster.mk (some "GeoTIFF") (some "reader0")
        (.grid ⟨0, 0, 10, 10, some "epsg:4326"⟩ (10, 10) 1)).resample
        (some ⟨0, 0, 19/10, 19/10, none⟩) none none).map
          (fun t => covSize t.coverage) = .ok (1, 1)
    ∧ autoSizeSpec (10, 10) ⟨0, 0, 10, 10, some "epsg:4326"⟩
        ⟨0, 0, 19/10, 19/10, none⟩ = (2, 2)
    ∧ ((1, 1) : ℤ × ℤ) ≠ ((2, 2) : ℤ × ℤ) := by
  refine ⟨?_, ?_, by decide⟩
  · norm_num [Raster.resample, Raster.projOf, Raster.extent, Raster.size,
      covExtent, covSize, Raster.op1, opValidate1, pyInt, Bounds.width,
      Bounds.height, Bounds.aspect, Int.floor_eq_iff, Except.map]
  · norm_num [autoSizeSpec, Bounds.width, Bounds.height, Bounds.aspect,
      round_eq, Int.floor_eq_iff]

/-- C1 (amended): for a bbox-only resample with no explicit size, the
output size is auto-computed with truncation (Python `int`), not
rounding: `outWidth = int(currentSize.x * bbox.width /
currentExtent.width)` and `outHeight = int(outWidth *
currentExtent.aspect)`; consequently, whenever `outWidth` is positive,
`outHeight / outWidth` equals the original extent's aspect ratio to
within `1/outWidth` from below, regardless of the bbox's own aspect
ratio. -/
theorem c1_resample_autosize_truncates (fmt rdr : Option String)
    (e : Bounds) (s : ℤ × ℤ) (n : Nat) (bb : Bounds) (p : String)
    (hpr : e.proj = some p) (hw : 0 < e.width) (hbw : 0 ≤ bb.width)
    (hs : 0 ≤ s.1) (hh : 0 ≤ e.height) :
    (Raster.mk fmt rdr (.grid e s n)).resample (some bb) none none
      = .ok (Raster.mk fmt rdr (.opResult1 "Resample" "Source"
          (.grid e s n) none (some p)
          (some ⟨⟨0, 0, ⌊(s.1 : ℚ) * bb.width / e.width⌋,
            ⌊(⌊(s.1 : ℚ) * bb.width / e.width⌋ : ℚ) * e.aspect⌋⟩, bb⟩)))
    ∧ (∀ w h : ℤ, w = ⌊(s.1 : ℚ) * bb.width / e.width⌋ →
        h = ⌊(w : ℚ) * e.aspect⌋ → 0 < w →
        e.aspect - 1 / (w : ℚ) < (h : ℚ) / (w : ℚ)
          ∧ (h : ℚ) / (w : ℚ) ≤ e.aspect) := by
  have hq : (0:ℚ) ≤ (s.1 : ℚ) * bb.width / e.width := by positivity
  have ha : (0:ℚ) ≤ e.aspect := div_nonneg hh hw.le
  have hq2 : (0:ℚ) ≤ (⌊(s.1 : ℚ) * bb.width / e.width⌋ : ℚ) * e.aspect :=
    mul_nonneg (by exact_mod_cast Int.floor_nonneg.mpr hq) ha
  refine ⟨?_, ?_⟩
  · simp [Raster.resample, Raster.projOf, Raster.extent, Raster.size,
      covExtent, covSize, Raster.op1, opValidate1, hpr, hw.ne', pyInt,
      hq, hq2]
  · rintro w h rfl rfl hwpos
    have hwq : (0:ℚ) < ((⌊(s.1 : ℚ) * bb.width / e.width⌋ : ℤ) : ℚ) := by
      exact_mod_cast hwpos
    constructor
    · rw [lt_div_iff₀ hwq]
      have h1 : (e.aspect
              - 1 / ((⌊(s.1 : ℚ) * bb.width / e.width⌋ : ℤ) : ℚ))
            * ((⌊(s.1 : ℚ) * bb.width / e.width⌋ : ℤ) : ℚ)
          = ((⌊(s.1 : ℚ) * bb.width / e.width⌋ : ℤ) : ℚ) * e.aspect
              - 1 := by
        field_simp
        ring
      rw [h1]
      exact Int.sub_one_lt_floor _
    · rw [div_le_iff₀ hwq]
      calc ((⌊((⌊(s.1 : ℚ) * bb.width / e.width⌋ : ℤ) : ℚ)
              * e.aspect⌋ : ℚ))
          ≤ ((⌊(s.1 : ℚ) * bb.width / e.width⌋ : ℤ) : ℚ) * e.aspect :=
            Int.floor_le _
        _ = e.aspect * ((⌊(s.1 : ℚ) * bb.width / e.width⌋ : ℤ) : ℚ) :=
            mul_comm _ _

/-- C1 witness: a raster with extent `(0,0,10,5)` (aspect `1/2`), size
`(10,5)`, resampled to the square bbox `(0,0,4,4)`: the output size is
`(4,2)` — width-driven, aspect taken from the original — and
`1/2 - 1/4 < 2/4 ≤ 1/2`. -/
theorem c1_resample_autosize_truncates_witness :
    (Bounds.mk 0 0 10 5 (some "epsg:4326")).proj = some "epsg:4326"
    ∧ (0 : ℚ) < (Bounds.mk 0 0 10 5 (some "epsg:4326")).width
    ∧ (0 : ℚ) ≤ (Bounds.mk 0 0 4 4 none).width
    ∧ (0 : ℤ) ≤ 10
    ∧ (0 : ℚ) ≤ (Bounds.mk 0 0 10 5 (some "epsg:4326")).height
    ∧ (Raster.mk (some "GeoTIFF") (some "reader0")
        (.grid ⟨0, 0, 10, 5, some "epsg:4326"⟩ (10, 5) 1)).resample
        (some ⟨0, 0, 4, 4, none⟩) none none
      = .ok (Raster.mk (some "GeoTIFF") (some "reader0")
          (.opResult1 "Resample" "Source"
            (.grid ⟨0, 0, 10, 5, some "epsg:4326"⟩ (10, 5) 1)
            none (some "epsg:4326")
            (some ⟨⟨0, 0, 4, 2⟩, ⟨0, 0, 4, 4, none⟩⟩)))
    ∧ (Bounds.mk 0 0 10 5 (some "epsg:4326")).aspect - 1 / ((4 : ℤ) : ℚ)
        < ((2 : ℤ) : ℚ) / ((4 : ℤ) : ℚ)
    ∧ ((2 : ℤ) : ℚ) / ((4 : ℤ) : ℚ)
        ≤ (Bounds.mk 0 0 10 5 (some "epsg:4326")).aspect := by
  have h := c1_resample_autosize_truncates (some "GeoTIFF") (some "reader0")
    ⟨0, 0, 10, 5, some "epsg:4326"⟩ (10, 5) 1 ⟨0, 0, 4, 4, none⟩
    "epsg:4326" rfl (by norm_num [Bounds.width])
    (by norm_num [Bounds.width]) (by decide)
    (by norm_num [Bounds.height])
  obtain ⟨h1, h2⟩ := h
  have hw4 : (4 : ℤ)
      = ⌊((((10, 5) : ℤ × ℤ)).1 : ℚ) * (Bounds.mk 0 0 4 4 none).width
          / (Bounds.mk 0 0 10 5 (some "epsg:4326")).width⌋ := by
    norm_num [Bounds.width]
  have hh2 : (2 : ℤ)
      = ⌊(((4 : ℤ)) : ℚ)
          * (Bounds.mk 0 0 10 5 (some "epsg:4326")).aspect⌋ := by
    norm_num [Bounds.aspect, Bounds.width, Bounds.height]
  have hb := h2 4 2 hw4 hh2 (by decide)
  rw [← hw4, ← hh2] at h1
  exact ⟨rfl, by norm_num [Bounds.width], by norm_num [Bounds.width],
    by decide, by norm_num [Bounds.height], h1, hb.1, hb.2⟩

/-- C2: a resample with only a pixel rectangle converts it to model space
using the current raster's pixel size and extent origin —
`west' = extent.west + rect.x*pixelSize.x`,
`south' = extent.south + rect.y*pixelSize.y`, extended by
`rect.width*pixelSize.x` and `rect.height*pixelSize.y`, inheriting the
extent's CRS — and the output size equals `(rect.width, rect.height)`. -/
theorem c2_resample_rect_geometry (fmt rdr : Option String) (e : Bounds)
    (s : ℤ × ℤ) (n : Nat) (rc : ℤ × ℤ × ℤ × ℤ) (p : String)
    (hpr : e.proj = some p) (h1 : s.1 ≠ 0) (h2 : s.2 ≠ 0) :
    (Raster.mk fmt rdr (.grid e s n)).resample none (some rc) none
      = .ok (Raster.mk fmt rdr (.opResult1 "Resample" "Source"
          (.grid e s n) none (some p)
          (some ⟨⟨0, 0, rc.2.2.1, rc.2.2.2⟩,
            ⟨e.west + (rc.1 : ℚ) * (e.width / (s.1 : ℚ)),
             e.south + (rc.2.1 : ℚ) * (e.height / (s.2 : ℚ)),
             e.west + ((rc.1 + rc.2.2.1 : ℤ) : ℚ) * (e.width / (s.1 : ℚ)),
             e.south + ((rc.2.1 + rc.2.2.2 : ℤ) : ℚ)
               * (e.height / (s.2 : ℚ)),
             e.proj⟩⟩))) := by
  simp [Raster.resample, Raster.projOf, Raster.pixelsize, Raster.extent,
    Raster.size, covExtent, covSize, Raster.op1, opValidate1, hpr, h1, h2]

/-- C2 witness: the spec's scenario — extent `(0,0,100,50)`, size
`(100,50)` (pixel size 1×1), `rect=(10,10,20,10)` produces output bounds
`(10,10,30,20)` and output size `(20,10)`. -/
theorem c2_resample_rect_geometry_witness :
    (Bounds.mk 0 0 100 50 (some "epsg:4326")).proj = some "epsg:4326"
    ∧ ((100 : ℤ) ≠ 0) ∧ ((50 : ℤ) ≠ 0)
    ∧ (Raster.mk (some "GeoTIFF") (some "reader0")
        (.grid ⟨0, 0, 100, 50, some "epsg:4326"⟩ (100, 50) 1)).resample
        none (some (10, 10, 20, 10)) none
      = .ok (Raster.mk (some "GeoTIFF") (some "reader0")
          (.opResult1 "Resample" "Source"
            (.grid ⟨0, 0, 100, 50, some "epsg:4326"⟩ (100, 50) 1)
            none (some "epsg:4326")
            (some ⟨⟨0, 0, 20, 10⟩,
              ⟨10, 10, 30, 20, some "epsg:4326"⟩⟩))) := by
  have h := c2_resample_rect_geometry (some "GeoTIFF") (some "reader0")
    ⟨0, 0, 100, 50, some "epsg:4326"⟩ (100, 50) 1 (10, 10, 20, 10)
    "epsg:4326" rfl (by decide) (by decide)
  norm_num [Bounds.width, Bounds.height] at h
  exact ⟨rfl, by decide, by decide, h⟩

/-- C5: the code does not guard against a zero-size output.  For a raster
with extent `(0,0,100,50)` and size `(100,50)` and the degenerate bbox
`(0, 0, 1/1000, 1/1000)`, the auto-computed width truncates to 0 and
`resample` succeeds, dispatching a `Resample` operation whose grid
geometry has a 0×0 pixel range — the zero-size geometry is propagated to
the engine instead of being rejected with `InvalidGeometry`. -/
theorem c5_zero_size_resample_propagated :
    (Raster.mk (some "GeoTIFF") (some "reader0")
        (.grid ⟨0, 0, 100, 50, some "epsg:4326"⟩ (100, 50) 1)).resample
        (some ⟨0, 0, 1/1000, 1/1000, none⟩) none none
      = .ok (Raster.mk (some "GeoTIFF") (some "reader0")
          (.opResult1 "Resample" "Source"
            (.grid ⟨0, 0, 100, 50, some "epsg:4326"⟩ (100, 50) 1)
            none (some "epsg:4326")
            (some ⟨⟨0, 0, 0, 0⟩, ⟨0, 0, 1/1000, 1/1000, none⟩⟩))) := by
  norm_num [Raster.resample, Raster.projOf, Raster.extent, Raster.size,
    covExtent, covSize, Raster.op1, opValidate1, pyInt, Bounds.width,
    Bounds.height, Bounds.aspect, Int.floor_eq_iff]

/-- C6 counterexample: an algebra-derived raster does not share its
parent's reader provenance.  A raster whose reader handle is
`"reader0"`, added to the scalar 1, yields a raster whose reader is
`None`. -/
theorem c6_algebra_drops_reader_counterexample :
    (Raster.mk (some "GeoTIFF") (some "reader0")
        (.grid ⟨0, 0, 10, 10, some "epsg:4326"⟩ (10, 10) 2)).reader
      = some "reader0"
    ∧ ((Raster.mk (some "GeoTIFF") (some "reader0")
        (.grid ⟨0, 0, 10, 10, some "epsg:4326"⟩ (10, 10) 2)).add
        (.scalar 1)).map Raster.reader = .ok none := ⟨rfl, rfl⟩

/-- C6 (amended): every derived raster shares its parent's format;
`resample`, `scale`, `crop` and unary negation also share the parent's
reader, but the binary algebra operators (`__add__`, `__sub__`,
`__mul__`, `__div__`) construct their results without passing the
reader, so an algebra-derived raster's reader is `None`. -/
theorem c6_provenance_amended (r : Raster) :
    (∀ bb rc sz r2, r.resample bb rc sz = .ok r2 →
      r2.format = r.format ∧ r2.reader = r.reader)
    ∧ (∀ (x y : ℚ) (interp : String) (r2 : Raster),
        r.scale x y interp = .ok r2 →
      r2.format = r.format ∧ r2.reader = r.reader)
    ∧ ((r.crop).format = r.format ∧ (r.crop).reader = r.reader)
    ∧ (∀ r2, r.neg = .ok r2 → r2.format = r.format ∧ r2.reader = r.reader)
    ∧ (∀ o r2, r.add o = .ok r2 → r2.format = r.format ∧ r2.reader = none)
    ∧ (∀ o r2, r.sub o = .ok r2 → r2.format = r.format ∧ r2.reader = none)
    ∧ (∀ o r2, r.mul o = .ok r2 → r2.format = r.format ∧ r2.reader = none)
    ∧ (∀ o r2, r.div o = .ok r2 →
        r2.format = r.format ∧ r2.reader = none) := by
  refine ⟨?_, ?_, ⟨rfl, rfl⟩, ?_, ?_, ?_, ?_, ?_⟩
  · intro bb rc sz r2 h
    rcases bb with _ | b <;> rcases rc with _ | rc <;>
      rcases sz with _ | sz <;>
    rcases hpx : r.pixelsize with pe | pv <;>
    rcases hpr : r.projOf with _ | pr <;>
    simp only [Raster.resample, hpx, hpr, Raster.op1, opValidate1,
      exceptBind_ok, exceptBind_error, exceptPure_eq_ok,
      exceptThrow_eq_error] at h <;>
    (try split at h) <;>
    first
      | (injection h with h2; subst h2; exact ⟨rfl, rfl⟩)
      | exact Except.noConfusion h
  · intro x y interp r2 h
    simp only [Raster.scale, jaiInterpolation] at h
    split at h <;>
    simp only [exceptBind_ok, exceptBind_error, exceptPure_eq_ok,
      exceptThrow_eq_error] at h <;>
    first
      | (injection h with h2; subst h2; exact ⟨rfl, rfl⟩)
      | exact Except.noConfusion h
  · intro r2 h
    simp [Raster.neg, Raster.op1, opValidate1] at h
    rw [← h]
    exact ⟨rfl, rfl⟩
  · intro o r2 h
    rcases o with o | c | cs <;>
    simp [Raster.add, Raster.op1, Raster.op2, opValidate1,
      Operand.constants] at h <;>
    (try split at h) <;>
    (try simp at h) <;>
    (rw [← h]; exact ⟨rfl, rfl⟩)
  · intro o r2 h
    rcases o with o | c | cs <;>
    simp [Raster.sub, Raster.add, Raster.neg, Raster.op1, Raster.op2,
      opValidate1, Operand.constants] at h <;>
    (try split at h) <;>
    (try simp at h) <;>
    (rw [← h]; exact ⟨rfl, rfl⟩)
  · intro o r2 h
    rcases o with o | c | cs <;>
    simp [Raster.mul, Raster.op1, Raster.op2, opValidate1,
      Operand.constants] at h <;>
    (try split at h) <;>
    (try simp at h) <;>
    (rw [← h]; exact ⟨rfl, rfl⟩)
  · intro o r2 h
    rcases o with o | c | cs <;>
    simp [Raster.div, Raster.mul, Raster.op1, Raster.op2, opValidate1,
      Operand.constants] at h <;>
    (try split at h) <;>
    (try simp at h) <;>
    (rw [← h]; exact ⟨rfl, rfl⟩)

/-- C6 witness: concrete derivations from a raster whose reader handle is
`"reader0"`: resample, scale, crop and negation keep format and reader;
add, sub, mul, div keep the format but produce a `None` reader. -/
theorem c6_provenance_amended_witness :
    ((Raster.mk (some "GeoTIFF") (some "reader0")
        (.grid ⟨0, 0, 100, 50, some "epsg:4326"⟩ (100, 50) 2)).resample
        (some ⟨5, 5, 25, 15, none⟩) none (some (3, 2))
      = .ok (Raster.mk (some "GeoTIFF") (some "reader0")
          (.opResult1 "Resample" "Source"
            (.grid ⟨0, 0, 100, 50, some "epsg:4326"⟩ (100, 50) 2)
            none (some "epsg:4326")
            (some ⟨⟨0, 0, 3, 2⟩, ⟨5, 5, 25, 15, none⟩⟩))))
    ∧ (Raster.mk (some "GeoTIFF") (some "reader0")
        (.opResult1 "Resample" "Source"
          (.grid ⟨0, 0, 100, 50, some "epsg:4326"⟩ (100, 50) 2)
          none (some "epsg:4326")
          (some ⟨⟨0, 0, 3, 2⟩, ⟨5, 5, 25, 15, none⟩⟩))).format
        = some "GeoTIFF"
    ∧ (Raster.mk (some "GeoTIFF") (some "reader0")
        (.opResult1 "Resample" "Source"
          (.grid ⟨0, 0, 100, 50, some "epsg:4326"⟩ (100, 50) 2)
          none (some "epsg:4326")
          (some ⟨⟨0, 0, 3, 2⟩, ⟨5, 5, 25, 15, none⟩⟩))).reader
        = some "reader0"
    ∧ (∀ r2 : Raster,
        (Raster.mk (some "GeoTIFF") (some "reader0")
          (.grid ⟨0, 0, 100, 50, some "epsg:4326"⟩ (100, 50) 2)).scale
          2 3 "nearest" = .ok r2 →
        r2.format = some "GeoTIFF" ∧ r2.reader = some "reader0")
    ∧ ((Raster.mk (some "GeoTIFF") (some "reader0")
        (.grid ⟨0, 0, 100, 50, some "epsg:4326"⟩ (100, 50) 2)).crop).reader
        = some "reader0"
    ∧ (∀ r2 : Raster,
        (Raster.mk (some "GeoTIFF") (some "reader0")
          (.grid ⟨0, 0, 100, 50, some "epsg:4326"⟩ (100, 50) 2)).neg
          = .ok r2 → r2.reader = some "reader0")
    ∧ (∀ r2 : Raster,
        (Raster.mk (some "GeoTIFF") (some "reader0")
          (.grid ⟨0, 0, 100, 50, some "epsg:4326"⟩ (100, 50) 2)).add
          (.scalar 1) = .ok r2 →
        r2.format = some "GeoTIFF" ∧ r2.reader = none)
    ∧ (∀ r2 : Raster,
        (Raster.mk (some "GeoTIFF") (some "reader0")
          (.grid ⟨0, 0, 100, 50, some "epsg:4326"⟩ (100, 50) 2)).sub
          (.scalar 1) = .ok r2 → r2.reader = none)
    ∧ (∀ r2 : Raster,
        (Raster.mk (some "GeoTIFF") (some "reader0")
          (.grid ⟨0, 0, 100, 50, some "epsg:4326"⟩ (100, 50) 2)).mul
          (.scalar 1) = .ok r2 → r2.reader = none)
    ∧ (∀ r2 : Raster,
        (Raster.mk (some "GeoTIFF") (some "reader0")
          (.grid ⟨0, 0, 100, 50, some "epsg:4326"⟩ (100, 50) 2)).div
          (.scalar 1) = .ok r2 → r2.reader = none) := by
  have h := c6_provenance_amended (Raster.mk (some "GeoTIFF")
    (some "reader0") (.grid ⟨0, 0, 100, 50, some "epsg:4326"⟩ (100, 50) 2))
  obtain ⟨h1, h2, h3, h4, h5, h6, h7, h8⟩ := h
  refine ⟨rfl, rfl, rfl, ?_, h3.2, ?_, ?_, ?_, ?_, ?_⟩
  · intro r2 hr
    exact h2 2 3 "nearest" r2 hr
  · intro r2 hr
    exact (h4 r2 hr).2
  · intro r2 hr
    exact h5 (.scalar 1) r2 hr
  · intro r2 hr
    exact (h6 (.scalar 1) r2 hr).2
  · intro r2 hr
    exact (h7 (.scalar 1) r2 hr).2
  · intro r2 hr
    exact (h8 (.scalar 1) r2 hr).2

end Geoscript
